import Mathlib

/-!
Shallow embedding of the CSS-like styling and layout core of the repository
(src/common/ui_styling.py and src/common/ui_core.py), together with theorems
settling the frozen claims about it.

Selector chains are lists of selector-element strings such as "div", "p.note",
with the direct-child combinator appearing as the separate element ">",
exactly as the rule parser stores them (UI_Style_RuleSet.__init__ appends the
combinator and each element as its own list entry).
-/

/- ---------------------------------------------------------------------------
Selector matching (src/common/ui_styling.py, UI_Style_RuleSet.match)
--------------------------------------------------------------------------- -/

/-- Result of `splitsel` inside UI_Style_RuleSet.match: the `p` dict with keys
type, class, id, pseudo. -/
structure SelParts where
  type    : String
  classes : List String
  id      : String
  pseudo  : List String
  deriving DecidableEq, Repr

/-- Modes of the `m` variable in `splitsel` (which dict key text is
currently accumulating into). -/
inductive SelMode
  | typeM | classM | idM | pseudoM
  deriving DecidableEq, Repr

/-- Commit accumulated text `v` into the part selected by mode `m`
(`p[m].append(v)` when the entry is a list, `p[m] = v` otherwise). -/
def commitSel (p : SelParts) (m : SelMode) (v : String) : SelParts :=
  match m with
  | SelMode.typeM   => { p with type := v }
  | SelMode.classM  => { p with classes := p.classes ++ [v] }
  | SelMode.idM     => { p with id := v }
  | SelMode.pseudoM => { p with pseudo := p.pseudo ++ [v] }

/-- Character loop of `splitsel`: on '.', '#', ':' commit and switch mode,
otherwise extend the accumulator. -/
def splitselGo (p : SelParts) (m : SelMode) (v : String) : List Char → SelParts
  | [] => commitSel p m v
  | c :: rest =>
      if c = '.' then splitselGo (commitSel p m v) SelMode.classM "" rest
      else if c = '#' then splitselGo (commitSel p m v) SelMode.idM "" rest
      else if c = ':' then splitselGo (commitSel p m v) SelMode.pseudoM "" rest
      else splitselGo p m (v.push c) rest

/-- `splitsel(sel)` from UI_Style_RuleSet.match: split one selector element
such as "p.note:hover" into its type / classes / id / pseudoclasses. -/
def splitsel (sel : String) : SelParts :=
  splitselGo ⟨"", [], "", []⟩ SelMode.typeM "" sel.toList

/-- `msel(sa, sb, cont)` from UI_Style_RuleSet.match, transcribed exactly:
`sa` is the chain passed to `match` (the node's full selector chain) and `sb`
is one of the rule's selector chains.  An empty `sa` returns True, an empty
`sb` returns False, a leading ">" in `sb` forces adjacency, and on both a
failed and a successful head comparison the code may drop the head of `sb`
when `cont` holds. -/
def msel (sa sb : List String) (cont : Bool) : Bool :=
  match sa, sb with
  | [], _ => true
  | _ :: _, [] => false
  | a0 :: sa', b0 :: sb' =>
      if b0 = ">" then msel (a0 :: sa') sb' false
      else
        let ap := splitsel a0
        let bp := splitsel b0
        let m : Bool :=
          (bp.type = "*" || ap.type = bp.type) &&
          (bp.id = "" || ap.id = bp.id) &&
          bp.classes.all (fun c => ap.classes.contains c) &&
          bp.pseudo.all (fun c => ap.pseudo.contains c)
        if m && msel sa' sb' true then true
        else if cont then msel (a0 :: sa') sb' true
        else false

/- ---------------------------------------------------------------------------
Style values and declarations (src/common/ui_styling.py)
--------------------------------------------------------------------------- -/

/-- A single declaration value token: a number or a string-like literal
(value keyword, identifier, cursor or color name; the claims only exercise
numbers and strings, which is all their comparisons distinguish). -/
inductive StyleLit
  | num (q : ℚ)
  | str (s : String)
  deriving DecidableEq, Repr

/-- A declaration value: one token, or the tuple formed when several value
tokens precede the terminating ';' (UI_Style_Declaration.__init__). -/
inductive StyleVal
  | one (l : StyleLit)
  | tuple (ls : List StyleLit)
  deriving DecidableEq, Repr

/-- UI_Style_Declaration: a `property: value;` pair. -/
structure UI_Style_Declaration where
  property : String
  value    : StyleVal
  deriving DecidableEq, Repr

/-- UI_Style_RuleSet: comma-separated selector chains plus a declaration
list, as built by the rule parser. -/
structure UI_Style_RuleSet where
  selectors : List (List String)
  decllist  : List UI_Style_Declaration
  deriving DecidableEq, Repr

/-- UI_Style_RuleSet.match (named matchRule here because `match` is a Lean
keyword): true iff any of the rule's selector chains msel-matches the
passed chain. -/
def UI_Style_RuleSet.matchRule (r : UI_Style_RuleSet) (selector : List String) : Bool :=
  r.selectors.any (fun sel => msel selector sel true)

/-- UI_Styling: an ordered list of rule sets (parse order). -/
structure UI_Styling where
  rules : List UI_Style_RuleSet
  deriving DecidableEq, Repr

/-- UI_Styling.get_decllist: declarations of all rules matching `selector`,
in rule order. -/
def UI_Styling.get_decllist (S : UI_Styling) (selector : List String) :
    List UI_Style_Declaration :=
  (S.rules.filter (fun r => r.matchRule selector)).flatMap (fun r => r.decllist)

/-! Claim theorems C1 and C2 (selector matching). -/

/-- C1: evaluation of UI_Style_RuleSet.match on the spec's four examples.
The chain [div, p.note] matches both the rule `div p.note` and the rule
`div > p.note`, and the chain [div, span, p.note] matches neither: the code
returns false for `div p.note` as well, contradicting the claim that the
descendant combinator accepts the intervening span. -/
theorem C1_match_examples :
    UI_Style_RuleSet.matchRule ⟨[["div", "p.note"]], []⟩ ["div", "p.note"] = true ∧
    UI_Style_RuleSet.matchRule ⟨[["div", ">", "p.note"]], []⟩ ["div", "p.note"] = true ∧
    UI_Style_RuleSet.matchRule ⟨[["div", "p.note"]], []⟩ ["div", "span", "p.note"] = false ∧
    UI_Style_RuleSet.matchRule ⟨[["div", ">", "p.note"]], []⟩ ["div", "span", "p.note"] = false := by
  refine ⟨?_, ?_, ?_, ?_⟩ <;> decide

/-- C2: the base cases of msel are the reverse of the claim.  For every
remaining rule-selector chain, an empty remaining node chain succeeds; and
for every nonempty remaining node chain, an empty remaining rule-selector
chain fails.  The claim states the two roles the other way around. -/
theorem C2_base_cases_swapped :
    (∀ (sb : List String) (c : Bool), msel [] sb c = true) ∧
    (∀ (a : String) (sa : List String) (c : Bool), msel (a :: sa) [] c = false) := by
  constructor
  · intro sb c
    rw [msel]
  · intro a sa c
    rw [msel]

/- ---------------------------------------------------------------------------
Cascade resolver (src/common/ui_styling.py, UI_Styling)
--------------------------------------------------------------------------- -/

/-- The Python dicts built by _expand_declarations and compute_style are
observed only through key lookups, so they are embedded as lookup
functions. -/
def StyleDict : Type := String → Option StyleVal

/-- The empty dict `{}`. -/
def demptyDict : StyleDict := fun _ => none

/-- Python dict assignment `d[k] = v`. -/
def dset (d : StyleDict) (k : String) (v : StyleVal) : StyleDict :=
  fun q => if q = k then some v else d q

/-- Python `d.update(d2)`: entries of `d2` win per key. -/
def dupdate (d d2 : StyleDict) : StyleDict :=
  fun q => match d2 q with
    | some v => some v
    | none => d q

/-- The literal value `initial`. -/
def initialVal : StyleVal := StyleVal.one (StyleLit.str "initial")

/-- The dict comprehension at the end of _expand_declarations:
`{k:v for (k,v) in decllist.items() if v != 'initial'}`. -/
def dfilterInitial (d : StyleDict) : StyleDict :=
  fun q => match d q with
    | some v => if v = initialVal then none else some v
    | none => none

/-- UI_Styling._trbl_split: CSS TRBL shorthand expansion of one to four
values.  A non-tuple value stands for all four sides; an empty tuple never
reaches this function (the parser builds only nonempty tuples; Python would
raise IndexError on it), and that case is mapped to the value itself. -/
def _trbl_split (v : StyleVal) : StyleVal × StyleVal × StyleVal × StyleVal :=
  match v with
  | StyleVal.one _ => (v, v, v, v)
  | StyleVal.tuple ls =>
      match ls with
      | [a] => (StyleVal.one a, StyleVal.one a, StyleVal.one a, StyleVal.one a)
      | [a, b] => (StyleVal.one a, StyleVal.one b, StyleVal.one a, StyleVal.one b)
      | [a, b, c] => (StyleVal.one a, StyleVal.one b, StyleVal.one c, StyleVal.one b)
      | a :: b :: c :: d :: _ =>
          (StyleVal.one a, StyleVal.one b, StyleVal.one c, StyleVal.one d)
      | [] => (v, v, v, v)

/-- Loop body of UI_Styling._expand_declarations: apply one declaration to
the accumulating dict, expanding the shorthand properties. -/
def applyDecl (d : StyleDict) (decl : UI_Style_Declaration) : StyleDict :=
  let p := decl.property
  let v := decl.value
  if p = "margin" ∨ p = "padding" then
    let vals := _trbl_split v
    dset (dset (dset (dset d (p ++ "-top") vals.1) (p ++ "-right") vals.2.1)
      (p ++ "-bottom") vals.2.2.1) (p ++ "-left") vals.2.2.2
  else if p = "border" then
    match v with
    | StyleVal.one l =>
        -- `if type(v) is not tuple: v = (v,)`; then only border-width is set
        dset d "border-width" (StyleVal.one l)
    | StyleVal.tuple ls =>
        match ls with
        | [] => d        -- unreachable from the parser (Python: IndexError)
        | x :: rest =>
            let d := dset d "border-width" (StyleVal.one x)
            if rest.isEmpty then d
            else
              let vals := _trbl_split (StyleVal.tuple rest)
              dset (dset (dset (dset d "border-top-color" vals.1)
                "border-right-color" vals.2.1)
                "border-bottom-color" vals.2.2.1) "border-left-color" vals.2.2.2
  else if p = "border-color" then
    let vals := _trbl_split v
    dset (dset (dset (dset d "border-top-color" vals.1) "border-right-color" vals.2.1)
      "border-bottom-color" vals.2.2.1) "border-left-color" vals.2.2.2
  else if p = "background" then dset d "background-color" v
  else if p = "width" then dset (dset d "min-width" v) "max-width" v
  else if p = "height" then dset (dset d "min-height" v) "max-height" v
  else dset d p v

/-- UI_Styling._expand_declarations: fold the declarations into a dict and
drop every property whose final value is the literal `initial`. -/
def _expand_declarations (decls : List UI_Style_Declaration) : StyleDict :=
  dfilterInitial (decls.foldl applyDecl demptyDict)

/-- UI_Styling.compute_style(selector, initial_styling, override_styling),
called on a styling `S` (the node's default style in ui_core): collect the
declarations of `S` and of the override styling that match the chain, expand
them, and overlay that onto the separately expanded declarations of the
initial styling.  The dead `if False:` sub-selector branch of the source is
omitted. -/
def compute_style (S : UI_Styling) (selector : List String)
    (initial_styling override_styling : Option UI_Styling) : StyleDict :=
  let full := S.get_decllist selector ++
    (match override_styling with
      | some o => o.get_decllist selector
      | none => [])
  let init_decllist := match initial_styling with
    | some i => _expand_declarations (i.get_decllist selector)
    | none => demptyDict
  let full_decllist := _expand_declarations full
  dupdate init_decllist full_decllist

/-- A property name that falls through every shorthand branch of
_expand_declarations and is stored under its own key. -/
def passthroughProp (p : String) : Bool :=
  !(p = "margin" || p = "padding" || p = "border" || p = "border-color" ||
    p = "background" || p = "width" || p = "height")

/-- For a pass-through property the expansion step is a plain dict
assignment. -/
theorem applyDecl_passthrough (d : StyleDict) (p : String) (v : StyleVal)
    (h : passthroughProp p = true) : applyDecl d ⟨p, v⟩ = dset d p v := by
  simp only [passthroughProp, Bool.not_eq_true', Bool.or_eq_false_iff,
    decide_eq_false_iff_not] at h
  obtain ⟨⟨⟨⟨⟨⟨h1, h2⟩, h3⟩, h4⟩, h5⟩, h6⟩, h7⟩ := h
  simp [applyDecl, h1, h2, h3, h4, h5, h6, h7]

/-- A trailing `initial` declaration for a pass-through property removes
that property from the expansion of its own declaration group. -/
theorem expand_last_initial (ds : List UI_Style_Declaration) (p : String)
    (h : passthroughProp p = true) :
    _expand_declarations (ds ++ [⟨p, initialVal⟩]) p = none := by
  unfold _expand_declarations
  rw [List.foldl_append]
  simp only [List.foldl_cons, List.foldl_nil]
  rw [applyDecl_passthrough _ _ _ h]
  simp [dfilterInitial, dset]

/-- Lookup through `update` falls back to the first dict when the second
lacks the key. -/
theorem dupdate_none (d d2 : StyleDict) (q : String) (h : d2 q = none) :
    dupdate d d2 q = d q := by
  unfold dupdate
  rw [h]

/-- A styling with no rules. -/
def stylingEmpty : UI_Styling := ⟨[]⟩

/-- Base stylesheet `* { overflow: scroll; }`. -/
def baseScroll : UI_Styling :=
  ⟨[⟨[["*"]], [⟨"overflow", StyleVal.one (StyleLit.str "scroll")⟩]⟩]⟩

/-- Override stylesheet `* { overflow: initial; }`. -/
def overInitial : UI_Styling := ⟨[⟨[["*"]], [⟨"overflow", initialVal⟩]⟩]⟩

/-- C3 counterexample: the base stylesheet sets `overflow: scroll`, the
override stylesheet sets `overflow: initial`, so the last applicable
declaration for the property is the literal `initial` — yet compute_style
returns the base value instead of leaving the property absent, because the
`initial` filter runs inside each expansion group before the overlay. -/
theorem C3_counterexample :
    compute_style stylingEmpty ["a"] (some baseScroll) (some overInitial) "overflow"
      = some (StyleVal.one (StyleLit.str "scroll")) := by
  decide

/-- C3 (amended): an `initial` declaration unsets a property only within its
own expansion group.  If the last declaration among the resolver's own and
the override stylesheet's applicable declarations is `initial` for a
pass-through property, that property is absent from the group's expanded
overlay, and compute_style falls back to whatever the separately expanded
base (initial) stylesheet gives for it — a base value therefore survives. -/
theorem C3_initial_scoped (S O I : UI_Styling) (sel : List String)
    (ds : List UI_Style_Declaration) (p : String)
    (hp : passthroughProp p = true)
    (hlast : S.get_decllist sel ++ O.get_decllist sel = ds ++ [⟨p, initialVal⟩]) :
    _expand_declarations (S.get_decllist sel ++ O.get_decllist sel) p = none ∧
    compute_style S sel (some I) (some O) p
      = _expand_declarations (I.get_decllist sel) p := by
  have h1 : _expand_declarations (S.get_decllist sel ++ O.get_decllist sel) p = none := by
    rw [hlast]
    exact expand_last_initial ds p hp
  refine ⟨h1, ?_⟩
  have h2 : compute_style S sel (some I) (some O) p
      = dupdate (_expand_declarations (I.get_decllist sel))
        (_expand_declarations (S.get_decllist sel ++ O.get_decllist sel)) p := rfl
  rw [h2, dupdate_none _ _ _ h1]

/-- C3 witness: the amended statement applied to the concrete stylesheets of
the counterexample. -/
theorem C3_initial_scoped_witness :
    _expand_declarations (stylingEmpty.get_decllist ["a"] ++ overInitial.get_decllist ["a"])
      "overflow" = none ∧
    compute_style stylingEmpty ["a"] (some baseScroll) (some overInitial) "overflow"
      = _expand_declarations (baseScroll.get_decllist ["a"]) "overflow" :=
  C3_initial_scoped stylingEmpty overInitial baseScroll ["a"] [] "overflow"
    (by decide) (by decide)

/-- The value `red`. -/
def redVal : StyleVal := StyleVal.one (StyleLit.str "red")

/-- The value `blue`. -/
def blueVal : StyleVal := StyleVal.one (StyleLit.str "blue")

/-- One stylesheet containing `a{color:red;} a{color:blue;}`. -/
def dupColor : UI_Styling :=
  ⟨[⟨[["a"]], [⟨"color", redVal⟩]⟩, ⟨[["a"]], [⟨"color", blueVal⟩]⟩]⟩

/-- Base stylesheet setting `color: red` twice. -/
def baseTwoRed : UI_Styling :=
  ⟨[⟨[["a"]], [⟨"color", redVal⟩]⟩, ⟨[["a"]], [⟨"color", redVal⟩]⟩]⟩

/-- Override stylesheet `a { color: blue; }`. -/
def overBlue : UI_Styling := ⟨[⟨[["a"]], [⟨"color", blueVal⟩]⟩]⟩

/-- C4: cascade order.  `a{color:red;} a{color:blue;}` resolves color to
blue; an override stylesheet wins against a base stylesheet that sets the
property twice; in general, for two matching rules in the same stylesheet
declaring the same pass-through property the later rule's (non-initial)
value is the one in the result, and whatever value the resolver-plus-
override group resolves for a property is the result regardless of the base
stylesheet. -/
theorem C4_cascade_order :
    (compute_style dupColor ["a"] none none "color" = some blueVal) ∧
    (compute_style stylingEmpty ["a"] (some baseTwoRed) (some overBlue) "color"
      = some blueVal) ∧
    (∀ (sl1 sl2 : List (List String)) (sel : List String) (p : String)
       (v1 v2 : StyleVal),
       passthroughProp p = true → v2 ≠ initialVal →
       (sl1.any fun ch => msel sel ch true) = true →
       (sl2.any fun ch => msel sel ch true) = true →
       compute_style ⟨[⟨sl1, [⟨p, v1⟩]⟩, ⟨sl2, [⟨p, v2⟩]⟩]⟩ sel none none p
         = some v2) ∧
    (∀ (S I O : UI_Styling) (sel : List String) (p : String) (v : StyleVal),
       _expand_declarations (S.get_decllist sel ++ O.get_decllist sel) p = some v →
       compute_style S sel (some I) (some O) p = some v) := by
  refine ⟨by decide, by decide, ?_, ?_⟩
  · intro sl1 sl2 sel p v1 v2 hp hv h1 h2
    have hd : UI_Styling.get_decllist ⟨[⟨sl1, [⟨p, v1⟩]⟩, ⟨sl2, [⟨p, v2⟩]⟩]⟩ sel
        = [⟨p, v1⟩, ⟨p, v2⟩] := by
      simp [UI_Styling.get_decllist, UI_Style_RuleSet.matchRule, List.filter, h1, h2]
    have he : compute_style ⟨[⟨sl1, [⟨p, v1⟩]⟩, ⟨sl2, [⟨p, v2⟩]⟩]⟩ sel none none p
        = dupdate demptyDict
          (_expand_declarations
            (UI_Styling.get_decllist ⟨[⟨sl1, [⟨p, v1⟩]⟩, ⟨sl2, [⟨p, v2⟩]⟩]⟩ sel ++ []))
          p := rfl
    rw [he, hd]
    simp only [List.append_nil]
    have hexp : _expand_declarations [⟨p, v1⟩, ⟨p, v2⟩] p = some v2 := by
      unfold _expand_declarations
      simp only [List.foldl_cons, List.foldl_nil]
      rw [applyDecl_passthrough _ _ _ hp, applyDecl_passthrough _ _ _ hp]
      simp [dfilterInitial, dset, hv]
    rw [dupdate, hexp]
  · intro S I O sel p v h
    have h2 : compute_style S sel (some I) (some O) p
        = dupdate (_expand_declarations (I.get_decllist sel))
          (_expand_declarations (S.get_decllist sel ++ O.get_decllist sel)) p := rfl
    rw [h2, dupdate, h]

/-- C4 witness: both general parts applied at concrete inputs. -/
theorem C4_cascade_order_witness :
    (compute_style ⟨[⟨[["a"]], [⟨"color", redVal⟩]⟩, ⟨[["a"]], [⟨"color", blueVal⟩]⟩]⟩
      ["a"] none none "color" = some blueVal) ∧
    (compute_style stylingEmpty ["a"] (some baseTwoRed) (some overBlue) "color"
      = some blueVal) :=
  ⟨C4_cascade_order.2.2.1 [["a"]] [["a"]] ["a"] "color" redVal blueVal
      (by decide) (by decide) (by decide) (by decide),
   C4_cascade_order.2.2.2 stylingEmpty baseTwoRed overBlue ["a"] "color" blueVal
      (by decide)⟩


/-- The four expanded side values of a margin/padding declaration. -/
def expandedSides (p : String) (v : StyleVal) :
    Option StyleVal × Option StyleVal × Option StyleVal × Option StyleVal :=
  (_expand_declarations [⟨p, v⟩] (p ++ "-top"),
   _expand_declarations [⟨p, v⟩] (p ++ "-right"),
   _expand_declarations [⟨p, v⟩] (p ++ "-bottom"),
   _expand_declarations [⟨p, v⟩] (p ++ "-left"))

/-- C8: shorthand expansion of margin and padding follows the CSS TRBL rule,
both at the level of _trbl_split (for every one-to-four value tuple and for
a single non-tuple value) and through _expand_declarations on the spec's
concrete examples (`margin: 5`, `margin: 5 10`, `margin: 5 10 15`,
`margin: 1 2 3 4`, `padding: 1 2 3 4`), whose results are listed in
(top, right, bottom, left) order. -/
theorem C8_trbl_rule :
    (∀ l : StyleLit, _trbl_split (StyleVal.one l)
      = (StyleVal.one l, StyleVal.one l, StyleVal.one l, StyleVal.one l)) ∧
    (∀ a : StyleLit, _trbl_split (StyleVal.tuple [a])
      = (StyleVal.one a, StyleVal.one a, StyleVal.one a, StyleVal.one a)) ∧
    (∀ a b : StyleLit, _trbl_split (StyleVal.tuple [a, b])
      = (StyleVal.one a, StyleVal.one b, StyleVal.one a, StyleVal.one b)) ∧
    (∀ a b c : StyleLit, _trbl_split (StyleVal.tuple [a, b, c])
      = (StyleVal.one a, StyleVal.one b, StyleVal.one c, StyleVal.one b)) ∧
    (∀ a b c d : StyleLit, _trbl_split (StyleVal.tuple [a, b, c, d])
      = (StyleVal.one a, StyleVal.one b, StyleVal.one c, StyleVal.one d)) ∧
    (expandedSides "margin" (StyleVal.one (StyleLit.num 5))
      = (some (StyleVal.one (StyleLit.num 5)), some (StyleVal.one (StyleLit.num 5)),
         some (StyleVal.one (StyleLit.num 5)), some (StyleVal.one (StyleLit.num 5)))) ∧
    (expandedSides "margin" (StyleVal.tuple [StyleLit.num 5, StyleLit.num 10])
      = (some (StyleVal.one (StyleLit.num 5)), some (StyleVal.one (StyleLit.num 10)),
         some (StyleVal.one (StyleLit.num 5)), some (StyleVal.one (StyleLit.num 10)))) ∧
    (expandedSides "margin" (StyleVal.tuple [StyleLit.num 5, StyleLit.num 10, StyleLit.num 15])
      = (some (StyleVal.one (StyleLit.num 5)), some (StyleVal.one (StyleLit.num 10)),
         some (StyleVal.one (StyleLit.num 15)), some (StyleVal.one (StyleLit.num 10)))) ∧
    (expandedSides "margin"
        (StyleVal.tuple [StyleLit.num 1, StyleLit.num 2, StyleLit.num 3, StyleLit.num 4])
      = (some (StyleVal.one (StyleLit.num 1)), some (StyleVal.one (StyleLit.num 2)),
         some (StyleVal.one (StyleLit.num 3)), some (StyleVal.one (StyleLit.num 4)))) ∧
    (expandedSides "padding"
        (StyleVal.tuple [StyleLit.num 1, StyleLit.num 2, StyleLit.num 3, StyleLit.num 4])
      = (some (StyleVal.one (StyleLit.num 1)), some (StyleVal.one (StyleLit.num 2)),
         some (StyleVal.one (StyleLit.num 3)), some (StyleVal.one (StyleLit.num 4)))) := by
  refine ⟨fun l => rfl, fun a => rfl, fun a b => rfl, fun a b c => rfl,
    fun a b c d => rfl, ?_, ?_, ?_, ?_, ?_⟩ <;> decide

/- ---------------------------------------------------------------------------
Box model layout (src/common/ui_core.py, UI_Core.layout and helpers)
--------------------------------------------------------------------------- -/

/-- A style number: a rational, or the `float('inf')` default used for the
missing max-width/max-height. -/
inductive StyNum
  | q (x : ℚ)
  | inf
  deriving DecidableEq, Repr

/-- Addition on style numbers (infinity absorbs). -/
def StyNum.add : StyNum → StyNum → StyNum
  | StyNum.q a, StyNum.q b => StyNum.q (a + b)
  | _, _ => StyNum.inf

/-- `max` on style numbers. -/
def StyNum.maxS : StyNum → StyNum → StyNum
  | StyNum.q a, StyNum.q b => StyNum.q (max a b)
  | _, _ => StyNum.inf

/-- `min` on style numbers. -/
def StyNum.minS : StyNum → StyNum → StyNum
  | StyNum.q a, StyNum.q b => StyNum.q (min a b)
  | StyNum.inf, y => y
  | x, StyNum.inf => x

/-- Modelled from the spec: `mid` is imported from the repository's maths
module, whose source is not under src/; the spec's box-model contract uses
it as `clamp(styleWidth ?? contentWidth, minWidth, maxWidth)`. -/
def mid (v lo hi : StyNum) : StyNum := StyNum.minS (StyNum.maxS v lo) hi

/-- Read a declaration value as a number; any other shape would raise a
TypeError in the subsequent Python arithmetic, embedded as `none`. -/
def styleNumOf : StyleVal → Option StyNum
  | StyleVal.one (StyleLit.num x) => some (StyNum.q x)
  | _ => none

/-- UI_Core._get_style_num: `v = styles.get(k, 'auto'); if v == 'auto':
v = def_v`, then clamp against the optional min_v / max_v arguments (all the
layout call sites pass None for both). -/
def _get_style_num (styles : StyleDict) (k : String) (def_v : StyNum)
    (min_v max_v : Option StyNum) : Option StyNum :=
  let vn : Option StyNum := match styles k with
    | none => some def_v
    | some v =>
        if v = StyleVal.one (StyleLit.str "auto") then some def_v else styleNumOf v
  match vn with
  | none => none
  | some v =>
      let v := match min_v with
        | some m => StyNum.maxS m v
        | none => v
      let v := match max_v with
        | some m => StyNum.minS m v
        | none => v
      some v

/-- UI_Core._get_style_trbl: the four sides of a margin/padding box, each
defaulting to 0. -/
def _get_style_trbl (styles : StyleDict) (kb : String) :
    Option (StyNum × StyNum × StyNum × StyNum) := do
  let t ← _get_style_num styles (kb ++ "-top") (StyNum.q 0) none none
  let r ← _get_style_num styles (kb ++ "-right") (StyNum.q 0) none none
  let b ← _get_style_num styles (kb ++ "-bottom") (StyNum.q 0) none none
  let l ← _get_style_num styles (kb ++ "-left") (StyNum.q 0) none none
  pure (t, r, b, l)

/-- The preferred-width computation in the body of UI_Core.layout
(the assignment to self._preferred_width):
margin_left + border_width + padding_left
+ mid(width ?? content_width, min_width, max_width)
+ padding_right + border_width + margin_right. -/
def layout_preferred_width (styles : StyleDict) (content_width : ℚ) :
    Option StyNum := do
  let min_w ← _get_style_num styles "min-width" (StyNum.q 0) none none
  let max_w ← _get_style_num styles "max-width" StyNum.inf none none
  let mtrbl ← _get_style_trbl styles "margin"
  let ptrbl ← _get_style_trbl styles "padding"
  let bw ← _get_style_num styles "border-width" (StyNum.q 0) none none
  let w ← _get_style_num styles "width" (StyNum.q content_width) none none
  pure ((((((mtrbl.2.2.2.add bw).add ptrbl.2.2.2).add
    (mid w min_w max_w)).add ptrbl.2.1).add bw).add mtrbl.2.1)

/-- Stylesheet `* { width:100; margin:5; border-width:2; padding:3; }`. -/
def boxStyling : UI_Styling :=
  ⟨[⟨[["*"]],
    [⟨"width", StyleVal.one (StyleLit.num 100)⟩,
     ⟨"margin", StyleVal.one (StyleLit.num 5)⟩,
     ⟨"border-width", StyleVal.one (StyleLit.num 2)⟩,
     ⟨"padding", StyleVal.one (StyleLit.num 3)⟩]⟩]⟩

/-- Stylesheet `* { margin:5; }` (no width, no min/max). -/
def marginOnlyStyling : UI_Styling :=
  ⟨[⟨[["*"]], [⟨"margin", StyleVal.one (StyleLit.num 5)⟩]⟩]⟩

/-- C7: on the computed style of `width:100; margin:5; border-width:2;
padding:3;` the preferred-width computation of UI_Core.layout yields
5+2+3+100+3+2+5 = 120 (`width` is expanded into min-width = max-width = 100
and the clamp of the content width against them gives 100); and with no
width/min/max declared at all, the defaults 0 and +inf leave the content
width unclamped (margin:5 with content 10 gives 20). -/
theorem C7_preferred_width :
    layout_preferred_width (compute_style boxStyling ["x"] none none) 0
      = some (StyNum.q 120) ∧
    layout_preferred_width (compute_style marginOnlyStyling ["x"] none none) 10
      = some (StyNum.q 20) := by
  constructor
  · have hmin : _get_style_num (compute_style boxStyling ["x"] none none)
        "min-width" (StyNum.q 0) none none = some (StyNum.q 100) := by decide
    have hmax : _get_style_num (compute_style boxStyling ["x"] none none)
        "max-width" StyNum.inf none none = some (StyNum.q 100) := by decide
    have hm : _get_style_trbl (compute_style boxStyling ["x"] none none) "margin"
        = some (StyNum.q 5, StyNum.q 5, StyNum.q 5, StyNum.q 5) := by decide
    have hp : _get_style_trbl (compute_style boxStyling ["x"] none none) "padding"
        = some (StyNum.q 3, StyNum.q 3, StyNum.q 3, StyNum.q 3) := by decide
    have hb : _get_style_num (compute_style boxStyling ["x"] none none)
        "border-width" (StyNum.q 0) none none = some (StyNum.q 2) := by decide
    have hw : _get_style_num (compute_style boxStyling ["x"] none none)
        "width" (StyNum.q 0) none none = some (StyNum.q 0) := by decide
    simp only [layout_preferred_width, hmin, hmax, hm, hp, hb, hw, Option.bind_eq_bind,
      Option.some_bind, mid, StyNum.maxS, StyNum.minS, StyNum.add, Option.some.injEq,
      StyNum.q.injEq]
    rw [max_comm, max_eq_left (by norm_num), min_eq_left (le_refl _)]
    norm_num
  · have hmin : _get_style_num (compute_style marginOnlyStyling ["x"] none none)
        "min-width" (StyNum.q 0) none none = some (StyNum.q 0) := by decide
    have hmax : _get_style_num (compute_style marginOnlyStyling ["x"] none none)
        "max-width" StyNum.inf none none = some StyNum.inf := by decide
    have hm : _get_style_trbl (compute_style marginOnlyStyling ["x"] none none) "margin"
        = some (StyNum.q 5, StyNum.q 5, StyNum.q 5, StyNum.q 5) := by decide
    have hp : _get_style_trbl (compute_style marginOnlyStyling ["x"] none none) "padding"
        = some (StyNum.q 0, StyNum.q 0, StyNum.q 0, StyNum.q 0) := by decide
    have hb : _get_style_num (compute_style marginOnlyStyling ["x"] none none)
        "border-width" (StyNum.q 0) none none = some (StyNum.q 0) := by decide
    have hw : _get_style_num (compute_style marginOnlyStyling ["x"] none none)
        "width" (StyNum.q 10) none none = some (StyNum.q 10) := by decide
    simp only [layout_preferred_width, hmin, hmax, hm, hp, hb, hw, Option.bind_eq_bind,
      Option.some_bind, mid, StyNum.maxS, StyNum.minS, StyNum.add, Option.some.injEq,
      StyNum.q.injEq]
    rw [max_eq_left (by norm_num)]
    norm_num

/- ---------------------------------------------------------------------------
Attribute namespace of UI_Core (src/common/ui_core.py, claim C9)
--------------------------------------------------------------------------- -/

/-- Every attribute name reachable on a UI_Core instance: the instance
attributes assigned by __init__ and the methods (the decorated
clear_children assigns _defer_dirty; position re-assigns _l/_t/_w/_h), plus
the class-namespace members (methods, properties and class attributes of
UI_Core and UI_Core_Utils).  Transcribed from src/common/ui_core.py. -/
def UI_Core_attr_names : List String :=
  [ -- instance attributes
   "_parent", "_children", "_selector", "_id", "_classes", "_pseudoclasses",
   "_custom_style", "_style_str", "_is_visible", "_computed_styles",
   "_preferred_width", "_preferred_height", "_content_width", "_content_height",
   "_l", "_t", "_w", "_h",
   "_preferred_size", "_pref_content_size", "_pref_full_size",
   "_box_draw", "_box_full",
   "_dirty_properties", "_dirty_propagation", "_defer_clean", "_defer_recalc",
   "_defer_dirty", "selector_type",
   -- class namespace
   "default_style", "init_default_style", "dirty", "is_dirty",
   "propagate_dirtiness", "defer_dirty_propagation", "clean",
   "_compute_style", "_compute_content", "_compute_preferred_size",
   "children", "append_child", "delete_child", "clear_children",
   "style", "add_style", "id", "classes", "add_class", "del_class",
   "pseudoclasses", "clear_pseudoclass", "add_pseudoclass", "del_pseudoclass",
   "is_visible", "get_visible_children",
   "layout", "layout_flexbox", "layout_block", "layout_inline", "layout_none",
   "position", "draw", "get_under_mouse",
   "compute_content", "compute_preferred_size", "compute_children_content_size",
   "layout_children", "position_children", "draw_children",
   "on_focus", "on_blur", "on_keydown", "on_keyup", "on_keypress",
   "on_mouseenter", "on_mousemove", "on_mousedown", "on_mouseup",
   "on_mouseclick", "on_mousedblclick", "on_mouseleave", "on_scroll",
   "_get_style_num", "_get_style_trbl", "defer_dirty"]

/-- The Python error relevant here. -/
inductive PyError
  | attributeError
  deriving DecidableEq, Repr

/-- Python attribute lookup against a set of defined attribute names. -/
def object_getattr (attrs : List String) (name : String) : Except PyError Unit :=
  if attrs.contains name then Except.ok () else Except.error PyError.attributeError

/-- Entry of UI_Core.layout: its first guard evaluates `self._is_dirty`; only
if that lookup succeeds can control flow ever continue toward the
preferred-size computation. -/
def UI_Core_layout_entry : Except PyError String :=
  match object_getattr UI_Core_attr_names "_is_dirty" with
  | Except.error e => Except.error e
  | Except.ok _ => Except.ok "reached preferred-size computation"

/-- C9: `_is_dirty` is not among the attribute names any code path of
UI_Core assigns (the defined name is the is_dirty property), so layout()
raises AttributeError at its first guard and never reaches the
preferred-size computation. -/
theorem C9_layout_attribute_error :
    UI_Core_attr_names.contains "_is_dirty" = false ∧
    UI_Core_layout_entry = Except.error PyError.attributeError :=
  ⟨by decide, rfl⟩

/- ---------------------------------------------------------------------------
Dirty-flag state machine (src/common/ui_core.py, UI_Core)
--------------------------------------------------------------------------- -/

/-- The value of the `_id` attribute: None, a string, or — after the slip in
the id setter, which executes `self._id = id` naming Python's builtin
function — the builtin `id` itself. -/
inductive IdVal
  | noneV
  | str (s : String)
  | builtinId
  deriving DecidableEq, Repr

/-- A set of dirty-property flags, drawn from {style, size, content}. -/
structure Flags where
  style   : Bool
  size    : Bool
  content : Bool
  deriving DecidableEq, Repr

/-- Set union `|=`. -/
def Flags.union (a b : Flags) : Flags :=
  ⟨a.style || b.style, a.size || b.size, a.content || b.content⟩

/-- Python `bool(set)` is false exactly on the empty set. -/
def Flags.isEmpty (a : Flags) : Bool := !a.style && !a.size && !a.content

/-- The empty flag set. -/
def Flags.emptyF : Flags := ⟨false, false, false⟩

/-- The full set {style, size, content}, the default `properties=None` of
UI_Core.dirty. -/
def Flags.allF : Flags := ⟨true, true, true⟩

/-- Per-node state: the node's own dirty set, the two pending propagation
sets and the defer flag of `_dirty_propagation`, the `_defer_dirty`
attribute written (and never read) by the defer_dirty decorator, and the
identity fields touched by the mutators. -/
structure NState where
  dirtyProps    : Flags
  pendParent    : Flags
  pendChildren  : Flags
  deferFlag     : Bool
  deferDirtyAttr : Bool
  classes       : List String
  idval         : IdVal
  styleStr      : String
  deriving DecidableEq, Repr

/-- The three nodes of the modelled tree: a parent P, the mutated middle
node C, and C's child G. -/
inductive NodeId
  | P | C | G
  deriving DecidableEq, Repr

/-- State of the three-node chain P -> C -> G, together with counters of the
actual propagation deliveries (calls of parent.dirty from a child's flush,
and of child.dirty from a parent's flush). -/
structure ChainState where
  pN : NState
  cN : NState
  gN : NState
  parentDeliveries : Nat
  childDeliveries  : Nat
  deriving DecidableEq, Repr

/-- Read one node's state. -/
def getN (s : ChainState) : NodeId → NState
  | NodeId.P => s.pN
  | NodeId.C => s.cN
  | NodeId.G => s.gN

/-- Replace one node's state. -/
def setN (s : ChainState) (who : NodeId) (n : NState) : ChainState :=
  match who with
  | NodeId.P => { s with pN := n }
  | NodeId.C => { s with cN := n }
  | NodeId.G => { s with gN := n }

/-- `self._parent` in the three-node chain. -/
def parentOf : NodeId → Option NodeId
  | NodeId.P => none
  | NodeId.C => some NodeId.P
  | NodeId.G => some NodeId.C

/-- `self._children` in the three-node chain. -/
def childrenOf : NodeId → List NodeId
  | NodeId.P => [NodeId.C]
  | NodeId.C => [NodeId.G]
  | NodeId.G => []

/-- Pending method call: UI_Core.dirty(properties, parent, children) or
UI_Core.propagate_dirtiness(). -/
inductive PyCall
  | callDirty (who : NodeId) (props : Flags) (toParent toChildren : Bool)
  | callPropagate (who : NodeId)

/-- Execute one call of the dirty / propagate_dirtiness pair on the chain,
transcribed from UI_Core.dirty and UI_Core.propagate_dirtiness.  The fuel
only guarantees Lean termination; every trace proved about below finishes
well within it. -/
def run : Nat → ChainState → PyCall → ChainState
  | 0, s, _ => s
  | Nat.succ fuel, s, PyCall.callDirty who props tp tc =>
      -- self._dirty_properties |= properties, plus the two pending unions
      let n := getN s who
      let n := { n with
        dirtyProps := n.dirtyProps.union props,
        pendParent := if tp then n.pendParent.union props else n.pendParent,
        pendChildren := if tc then n.pendChildren.union props else n.pendChildren }
      run fuel (setN s who n) (PyCall.callPropagate who)
  | Nat.succ fuel, s, PyCall.callPropagate who =>
      let n := getN s who
      if n.deferFlag then s
      else
        -- parent branch: deliver to the parent if any, then clear
        let s1 :=
          if n.pendParent.isEmpty then s
          else
            let s' := match parentOf who with
              | some pid =>
                  run fuel { s with parentDeliveries := s.parentDeliveries + 1 }
                    (PyCall.callDirty pid n.pendParent true false)
              | none => s
            setN s' who { getN s' who with pendParent := Flags.emptyF }
        -- children branch: re-read the pending set, deliver to each child, clear
        let n1 := getN s1 who
        if n1.pendChildren.isEmpty then s1
        else
          let s2 := (childrenOf who).foldl
            (fun acc ch =>
              run fuel { acc with childDeliveries := acc.childDeliveries + 1 }
                (PyCall.callDirty ch (getN acc who).pendChildren false true))
            s1
          setN s2 who { getN s2 who with pendChildren := Flags.emptyF }

/-- UI_Core.add_class: no-op if the class is present, otherwise add it and
call `self.dirty(parent=True, children=True)` — with the `properties`
argument left at its default None, i.e. the full flag set. -/
def add_class (fuel : Nat) (s : ChainState) (who : NodeId) (cls : String) : ChainState :=
  let n := getN s who
  if n.classes.contains cls then s
  else run fuel (setN s who { n with classes := cls :: n.classes })
    (PyCall.callDirty who Flags.allF true true)

/-- The id property setter: strip the new value (None becomes ''), no-op if
unchanged, otherwise store — by the slip — the builtin `id`, and call
`self.dirty(parent=True, children=True)` (full default flag set). -/
def id_setter_node (fuel : Nat) (s : ChainState) (who : NodeId) (nid : Option String) :
    ChainState :=
  let nid2 := match nid with
    | none => ""
    | some t => t.trim
  let n := getN s who
  if n.idval = IdVal.str nid2 then s
  else run fuel (setN s who { n with idval := IdVal.builtinId })
    (PyCall.callDirty who Flags.allF true true)

/-- The style property setter: store the text and call `self.dirty()` — all
three defaults, so the full flag set, parent=True, children=False. -/
def style_setter_node (fuel : Nat) (s : ChainState) (who : NodeId) (txt : String) :
    ChainState :=
  let n := getN s who
  run fuel (setN s who { n with styleStr := txt })
    (PyCall.callDirty who Flags.allF true false)

/-- UI_Core_Utils.defer_dirty wrapping three mutations of node C: the
decorator sets `self._defer_dirty = True`, runs the wrapped body (set id,
add class, set style text), sets `self._defer_dirty = False`, and finishes
with `self.dirty(properties, parent=parent, children=children)` at the
decorator defaults (None, True, False).  Note the decorator never touches
`_dirty_propagation['defer']`, the flag propagate_dirtiness actually
reads. -/
def defer_dirty_region3 (fuel : Nat) (s : ChainState) : ChainState :=
  let s := setN s NodeId.C { getN s NodeId.C with deferDirtyAttr := true }
  let s := id_setter_node fuel s NodeId.C (some "newid")
  let s := add_class fuel s NodeId.C "fancy"
  let s := style_setter_node fuel s NodeId.C "border:1"
  let s := setN s NodeId.C { getN s NodeId.C with deferDirtyAttr := false }
  run fuel s (PyCall.callDirty NodeId.C Flags.allF true false)

/-- A fully clean node (post-layout steady state). -/
def cleanNState : NState :=
  ⟨Flags.emptyF, Flags.emptyF, Flags.emptyF, false, false, [], IdVal.builtinId, ""⟩

/-- A fully clean three-node chain. -/
def cleanChain : ChainState := ⟨cleanNState, cleanNState, cleanNState, 0, 0⟩

/-- The chain state right after the decorator has set `_defer_dirty` and the
first wrapped mutation (set id) has run. -/
def afterFirstMutation : ChainState :=
  id_setter_node 12
    (setN cleanChain NodeId.C { getN cleanChain NodeId.C with deferDirtyAttr := true })
    NodeId.C (some "newid")

/-- C5: the defer_dirty region does not hold propagation.  Already after the
first wrapped mutation the parent's dirty set has received the full flag
set (so the held-while-suspended part of the claim fails), because the
decorator's `_defer_dirty` attribute is disjoint from the
`_dirty_propagation['defer']` flag propagate_dirtiness consults; and the
whole region performs four parent-direction and two child-direction
deliveries instead of one per direction. -/
theorem C5_defer_dirty_disconnected :
    (getN afterFirstMutation NodeId.P).dirtyProps = Flags.allF ∧
    (getN afterFirstMutation NodeId.C).deferDirtyAttr = true ∧
    (getN afterFirstMutation NodeId.C).deferFlag = false ∧
    (defer_dirty_region3 12 cleanChain).parentDeliveries = 4 ∧
    (defer_dirty_region3 12 cleanChain).childDeliveries = 2 := by
  refine ⟨?_, ?_, ?_, ?_, ?_⟩ <;> rfl

/-- C6 counterexample: add_class on a clean chain marks the node's size and
content bits dirty too (not exactly {style}), and the inline style text
setter propagates nothing to the child G (children=False), contradicting
the claim that identity mutators dirty exactly {style} in both
directions. -/
theorem C6_counterexample :
    (getN (add_class 12 cleanChain NodeId.C "x") NodeId.C).dirtyProps.size = true ∧
    (getN (add_class 12 cleanChain NodeId.C "x") NodeId.C).dirtyProps.content = true ∧
    (getN (style_setter_node 12 cleanChain NodeId.C "border:1") NodeId.G).dirtyProps
      = Flags.emptyF := by
  refine ⟨?_, ?_, ?_⟩ <;> rfl

/-- C6 (amended): on a clean chain, add_class with a new class and the id
setter each dirty the node, its parent and its child with the full flag set
{style, size, content} (the dirty call's properties argument defaults to
None, i.e. all flags), while the inline style text setter dirties the node
and its parent with the full set but does not propagate to children. -/
theorem C6_full_flag_set (cls nid txt : String) :
    ((getN (add_class 12 cleanChain NodeId.C cls) NodeId.C).dirtyProps = Flags.allF ∧
     (getN (add_class 12 cleanChain NodeId.C cls) NodeId.P).dirtyProps = Flags.allF ∧
     (getN (add_class 12 cleanChain NodeId.C cls) NodeId.G).dirtyProps = Flags.allF) ∧
    ((getN (id_setter_node 12 cleanChain NodeId.C (some nid)) NodeId.C).dirtyProps
        = Flags.allF ∧
     (getN (id_setter_node 12 cleanChain NodeId.C (some nid)) NodeId.P).dirtyProps
        = Flags.allF ∧
     (getN (id_setter_node 12 cleanChain NodeId.C (some nid)) NodeId.G).dirtyProps
        = Flags.allF) ∧
    ((getN (style_setter_node 12 cleanChain NodeId.C txt) NodeId.C).dirtyProps
        = Flags.allF ∧
     (getN (style_setter_node 12 cleanChain NodeId.C txt) NodeId.P).dirtyProps
        = Flags.allF ∧
     (getN (style_setter_node 12 cleanChain NodeId.C txt) NodeId.G).dirtyProps
        = Flags.emptyF) :=
  ⟨⟨rfl, rfl, rfl⟩, ⟨rfl, rfl, rfl⟩, ⟨rfl, rfl, rfl⟩⟩

/- ---------------------------------------------------------------------------
The id property (src/common/ui_core.py, claim C10)
--------------------------------------------------------------------------- -/

/-- The id setter in isolation: `nid = '' if nid is None else nid.strip()`,
early return when `self._id == nid`, otherwise `self._id = id` — the
builtin function id, not the stripped string. -/
def ui_core_id_set (cur : IdVal) (nid : Option String) : IdVal :=
  let nid2 := match nid with
    | none => ""
    | some t => t.trim
  if cur = IdVal.str nid2 then cur else IdVal.builtinId

/-- The id property getter returns `self._id` unchanged. -/
def ui_core_id_get (cur : IdVal) : IdVal := cur

/-- C10: assigning any nonempty string different from the node's current id
to the id property never makes the property read back as that string: the
setter either returns early (leaving the old, different value) or stores
the builtin `id`. -/
theorem C10_id_never_retained (cur : IdVal) (s : String)
    (hne : s ≠ "") (hdiff : IdVal.str s ≠ cur) :
    ui_core_id_get (ui_core_id_set cur (some s)) ≠ IdVal.str s := by
  unfold ui_core_id_get ui_core_id_set
  by_cases h : cur = IdVal.str s.trim
  · rw [if_pos h]
    intro he
    exact hdiff he.symm
  · rw [if_neg h]
    intro he
    cases he

/-- C10 witness: a freshly constructed node (whose `_id` is already the
builtin after `__init__` ran the setter) assigned the id "x". -/
theorem C10_id_never_retained_witness :
    ui_core_id_get (ui_core_id_set IdVal.builtinId (some "x")) ≠ IdVal.str "x" :=
  C10_id_never_retained IdVal.builtinId "x" (by decide) (by decide)
